import Mathlib

/-!
Shallow embedding of `src/nodes/batchnormalization.h` from the onnx2c
repository (the `toC::BatchNormalization` node class), together with proofs
about its resolution and code-emission behaviour.

Modelling choices:
* Element values of tensor buffers are an abstract type `α` with decidable
  equality.  The C code works on IEEE `float`; the claims under study are
  structural (which elements are compared, which buffer entries are mapped
  through `sqrt(v + epsilon)`, which text is emitted), so the arithmetic
  operations `sqrt` and `+` are passed in as abstract functions `fsqrt` and
  `fadd`, and the constants `1.0f` / `0.0f` as abstract values `one` / `zero`.
* The `ERROR(...)` macro aborts compilation of the node; fallible C++ code is
  modelled with `Except Err`.  Each `ERROR` call site is mapped to the error
  taxonomy of the specification (ArityError, TypeError, AttributeError,
  UnimplementedError), keeping the message text of the call site.
* In-place mutation of a tensor buffer becomes explicit state passing: the
  mutated tensor value is stored back into the node state.
* `print` writes C source text to a stream.  It is modelled as producing a
  list of structured statements (`CStmt`), one constructor per `dst <<`
  statement group of the source, each constructor carrying exactly the data
  interpolated into the emitted text.  The two reads `input->data_dim[0]`
  and `input->data_dim[1]` are modelled as fallible lookups; the result
  `none` marks the out-of-bounds `std::vector` access the C++ performs
  when the input rank is below 2 (and the null dereference when `print`
  runs on an unresolved node).
-/

namespace OnnxToC

/-- ONNX tensor element data types relevant to this component
(`onnx::TensorProto_DataType_*`). -/
inductive DataType where
  | FLOAT
  | FLOAT16
  | DOUBLE
  | INT8
  | INT32
  | INT64
  | UINT8
  | BOOL
  | STRING
deriving DecidableEq, Repr

/-- Error taxonomy of the specification; every `ERROR(...)` call site of the
source is mapped to one constructor, carrying the message of the call site. -/
inductive Err where
  | AttributeError (msg : String)
  | UnimplementedError (msg : String)
  | ArityError (msg : String)
  | TypeError (msg : String)
deriving DecidableEq, Repr

/-- The onnx2c `Tensor`: static shape (`data_dim`), element type tag
(`data_type`), constness flag (`isConst`) and, for constant tensors, the
backing buffer (`data_buffer`).  The C buffer of a constant tensor holds
exactly `data_num_elem()` = product-of-shape elements; the model stores those
elements as a list, so iterating indices `0 .. data_num_elem()-1` over the C
buffer corresponds to traversing the list. -/
structure Tensor (α : Type) where
  data_dim : List Nat
  data_type : DataType
  isConst : Bool
  data_buffer : List α
deriving DecidableEq

/-- Modelled from the spec: `typeConstraint_plainFloatingPoints` is defined in
the `Node` base class, outside the file under study.  Per the specification an
operand passes iff "its element type is plain floating point (integer,
boolean, string, and quantized types are rejected)". -/
def typeConstraint_plainFloatingPoints {α : Type} (t : Tensor α) : Bool :=
  match t.data_type with
  | .FLOAT | .FLOAT16 | .DOUBLE => true
  | _ => false

/-- Attribute record types (`onnx::AttributeProto_AttributeType_*`). -/
inductive AttributeType where
  | UNDEFINED
  | FLOAT
  | INT
  | STRING
deriving DecidableEq, Repr

/-- An ONNX attribute record (`onnx::AttributeProto`): a name, a declared
type, and optional float (`has_f`/`f`) and integer (`has_i`/`i`) payloads. -/
structure AttributeProto (α : Type) where
  name : String
  type : AttributeType
  f : Option α
  i : Option Int
deriving DecidableEq

/-- The mutable fields of the `toC::BatchNormalization` node object.  The
constructor sets `epsilon = 1e-5`, `momentum = 0.9`,
`sqrt_var_offline = false` and all tensor pointers to `NULL` (`none`). -/
structure BatchNormalization (α : Type) where
  epsilon : α
  momentum : α
  sqrt_var_offline : Bool
  input : Option (Tensor α)
  scale : Option (Tensor α)
  bias : Option (Tensor α)
  mean : Option (Tensor α)
  var : Option (Tensor α)
  output : Option (Tensor α)
deriving DecidableEq

/-- `parseAttribute_epsilon`: the record must have declared type FLOAT and
must carry a float value, otherwise `ERROR("Bad attribute " << a.name())`;
on success the node's `epsilon` field is set to the value. -/
def parseAttribute_epsilon {α : Type} (st : BatchNormalization α)
    (a : AttributeProto α) : Except Err (BatchNormalization α) :=
  if a.type ≠ AttributeType.FLOAT then
    .error (.AttributeError ("Bad attribute " ++ a.name))
  else
    match a.f with
    | none => .error (.AttributeError ("Bad attribute " ++ a.name))
    | some v => .ok { st with epsilon := v }

/-- `parseAttribute_momentum`: same checks as for epsilon; on success the
node's `momentum` field is set to the value. -/
def parseAttribute_momentum {α : Type} (st : BatchNormalization α)
    (a : AttributeProto α) : Except Err (BatchNormalization α) :=
  if a.type ≠ AttributeType.FLOAT then
    .error (.AttributeError ("Bad attribute " ++ a.name))
  else
    match a.f with
    | none => .error (.AttributeError ("Bad attribute " ++ a.name))
    | some v => .ok { st with momentum := v }

/-- Modelled from the spec: `parse_attribute_int` is defined in the `Node`
base class, outside the file under study.  The specification says the
"spatial" record is "parsed as an integer"; the model returns the record's
integer payload and fails in the style of the other attribute errors when
the record carries no integer value. -/
def parse_attribute_int {α : Type} (a : AttributeProto α) : Except Err Int :=
  match a.i with
  | some v => .ok v
  | none => .error (.AttributeError ("Bad attribute " ++ a.name))

/-- `parseAttributes`: iterates over the node's attribute records in order.
Records named "epsilon" / "momentum" are parsed by the dedicated helpers; a
record named "spatial" is parsed as an integer and any value other than 1 is
`ERROR`ed as unimplemented; any other name is
`ERROR("Unknown attribute " << a.name())`. -/
def parseAttributes {α : Type} (st : BatchNormalization α) :
    List (AttributeProto α) → Except Err (BatchNormalization α)
  | [] => .ok st
  | a :: rest =>
    if a.name = "epsilon" then
      match parseAttribute_epsilon st a with
      | .error e => .error e
      | .ok st2 => parseAttributes st2 rest
    else if a.name = "momentum" then
      match parseAttribute_momentum st a with
      | .error e => .error e
      | .ok st2 => parseAttributes st2 rest
    else if a.name = "spatial" then
      match parse_attribute_int a with
      | .error e => .error e
      | .ok spatial =>
        if spatial ≠ 1 then
          .error (.UnimplementedError
            "non-default value for spatial attribute not implemented")
        else parseAttributes st rest
    else
      .error (.AttributeError ("Unknown attribute " ++ a.name))

/-- `isSplatted(t, value)`: `ERROR("Unimplemented")` unless the element type
is single-precision FLOAT; returns false for non-constant tensors; otherwise
scans the constant buffer and returns true iff every element compares equal
to `value` (`b[i] != value` is the C comparison). -/
def isSplatted {α : Type} [DecidableEq α] (t : Tensor α) (value : α) :
    Except Err Bool :=
  if t.data_type ≠ DataType.FLOAT then
    .error (.UnimplementedError "Unimplemented")
  else if t.isConst = false then
    .ok false
  else
    .ok (t.data_buffer.all (fun b => decide (b = value)))

/-- `calculateSqrtVarOffline`: updates the variance tensor's buffer in place,
replacing every element `v` by `sqrt(v + epsilon)`.  Mutation is modelled by
returning the tensor with the mapped buffer. -/
def calculateSqrtVarOffline {α : Type} (fsqrt : α → α) (fadd : α → α → α)
    (epsilon : α) (t : Tensor α) : Tensor α :=
  { t with data_buffer := t.data_buffer.map (fun v => fsqrt (fadd v epsilon)) }

/-- Result of `resolve`: the updated node state plus the `register_input` /
`register_output` calls made on the graph (tensor, name), in call order.
The registration mechanism itself lives in the `Node` base class outside the
file under study; the model records the calls. -/
structure ResolveResult (α : Type) where
  state : BatchNormalization α
  registered_inputs : List (Tensor α × String)
  registered_outputs : List (Tensor α × String)
deriving DecidableEq

/-- `resolve`: arity check (`ERROR` unless exactly 5 inputs), positional
binding and registration of (X, scale, bias, mean, var), the five
plain-floating-point type checks (`ERROR("Incorrect input for node")`),
identity elision of scale / bias via `isSplatted` (nulling the reference),
in-place variance folding when `var` is constant (setting
`sqrt_var_offline`), and creation/registration of the output tensor whose
`data_dim` and `data_type` are copied from the input. -/
def resolve {α : Type} [DecidableEq α] (fsqrt : α → α) (fadd : α → α → α)
    (one zero : α) (st : BatchNormalization α) (inputs : List (Tensor α)) :
    Except Err (ResolveResult α) :=
  match inputs with
  | [input, scale, bias, mean, var] =>
    if typeConstraint_plainFloatingPoints input = false then
      .error (.TypeError "Incorrect input for node")
    else if typeConstraint_plainFloatingPoints scale = false then
      .error (.TypeError "Incorrect input for node")
    else if typeConstraint_plainFloatingPoints bias = false then
      .error (.TypeError "Incorrect input for node")
    else if typeConstraint_plainFloatingPoints mean = false then
      .error (.TypeError "Incorrect input for node")
    else if typeConstraint_plainFloatingPoints var = false then
      .error (.TypeError "Incorrect input for node")
    else
      match isSplatted scale one with
      | .error e => .error e
      | .ok scaleSplat =>
        match isSplatted bias zero with
        | .error e => .error e
        | .ok biasSplat =>
          let scaleRef : Option (Tensor α) :=
            if scaleSplat then none else some scale
          let biasRef : Option (Tensor α) :=
            if biasSplat then none else some bias
          let varRef : Tensor α :=
            if var.isConst then calculateSqrtVarOffline fsqrt fadd st.epsilon var
            else var
          let offline : Bool :=
            if var.isConst then true else st.sqrt_var_offline
          let rv : Tensor α :=
            { data_dim := input.data_dim
              data_type := input.data_type
              isConst := false
              data_buffer := [] }
          .ok
            { state :=
                { st with
                  input := some input
                  scale := scaleRef
                  bias := biasRef
                  mean := some mean
                  var := some varRef
                  sqrt_var_offline := offline
                  output := some rv }
              registered_inputs :=
                [(input, "X"), (scale, "scale"), (bias, "bias"),
                 (mean, "mean"), (var, "var")]
              registered_outputs := [(rv, "output")] }
  | _ => .error (.ArityError "wrong number of inputs to BatchNormalization")

/-- One structured statement of the C text emitted by `print`.  Each
constructor corresponds to one `dst <<` statement group of the source and
carries exactly the data interpolated into the text:
* `headerComment e m` — the `/* BatchNormalization ... epsilon ... momentum
  ... */` comment block;
* `epsilonDecl e` — `float epsilon = <e>;`;
* `forLoop c n` — `for( ... <c>=0; <c><<n>; <c>++ ) {`;
* `tmp_X idxs folded` — `<type> tmp_X = ( X<idxs> - mean[c] ) / ...` where
  the denominator text is `( var[c] );` when `folded` is true and
  `( sqrt( var[c] + epsilon));` when it is false;
* `assignOutput idxs ws wb` — `output<idxs> = tmp_X ...;` where the text
  `* scale[c]` appears iff `ws` and ` + bias[c]` appears iff `wb`;
* `closeBrace` — a closing `}`. -/
inductive CStmt (α : Type) where
  | headerComment (epsilon momentum : α)
  | epsilonDecl (epsilon : α)
  | forLoop (counter : String) (bound : Nat)
  | tmp_X (idxs : String) (var_folded : Bool)
  | assignOutput (idxs : String) (with_scale with_bias : Bool)
  | closeBrace
deriving DecidableEq

/-- The indexing string `idxs` built by `print`: starts as `[b][c]`, then one
`[i<i>]` per data dimension `i = 2 .. rank-1`. -/
def idxString (dims : List Nat) : String :=
  "[b][c]" ++ String.join ((List.range' 2 (dims.length - 2)).map
    (fun i => "[i" ++ toString i ++ "]"))

/-- `print`: emits the comment header, the local `float epsilon` declaration
when the variance was not folded, the batch loop (bound `data_dim[0]`), the
channel loop (bound `data_dim[1]`), one loop per data dimension
`i = 2 .. rank-1` (bound `data_dim[i]`), the `tmp_X` statement, the output
assignment (scale / bias terms present iff the references are non-null), and
the closing braces.  The reads `data_dim[0]` / `data_dim[1]` are modelled as
fallible lookups: `none` marks the out-of-bounds access performed on an
input of rank below 2 (or the null dereference on an unresolved node). -/
def print {α : Type} (st : BatchNormalization α) : Option (List (CStmt α)) :=
  match st.input with
  | none => none
  | some input =>
    match input.data_dim[0]?, input.data_dim[1]? with
    | some batch_size, some num_chan =>
      let idxs := idxString input.data_dim
      some
        ([CStmt.headerComment st.epsilon st.momentum]
          ++ (if st.sqrt_var_offline = false then [CStmt.epsilonDecl st.epsilon]
              else [])
          ++ [CStmt.forLoop "b" batch_size, CStmt.forLoop "c" num_chan]
          ++ (List.range' 2 (input.data_dim.length - 2)).map
              (fun i => CStmt.forLoop ("i" ++ toString i)
                (input.data_dim.getD i 0))
          ++ [CStmt.tmp_X idxs st.sqrt_var_offline,
              CStmt.assignOutput idxs st.scale.isSome st.bias.isSome]
          ++ (List.range' 2 (input.data_dim.length - 2)).map
              (fun _ => CStmt.closeBrace)
          ++ [CStmt.closeBrace, CStmt.closeBrace])
    | _, _ => none

/-- Extracts the loop bound from a `forLoop` statement. -/
def loopBound {α : Type} : CStmt α → Option Nat
  | .forLoop _ b => some b
  | _ => none

/-! ### Shared helper lemmas -/

/-- The only error `isSplatted` can raise is the UnimplementedError of its
element-type check. -/
lemma isSplatted_error {α : Type} [DecidableEq α] (t : Tensor α) (value : α)
    (e : Err) (h : isSplatted t value = .error e) :
    e = Err.UnimplementedError "Unimplemented" := by
  unfold isSplatted at h
  split_ifs at h
  all_goals simp_all

/-- A `filterMap` whose function always succeeds is a `map`. -/
lemma filterMap_some {β γ : Type} (f : β → γ) (l : List β) :
    l.filterMap (fun x => some (f x)) = l.map f := by
  induction l with
  | nil => rfl
  | cons a t ih => simp [List.filterMap_cons, ih]

/-- Reading the cons-cons list `d0 :: d1 :: rest` at positions
`2 .. 2 + rest.length - 1` (the loop `for(i = 2; i < size; i++)`) recovers
exactly `rest`. -/
lemma spatial_bounds (d0 d1 : Nat) (rest : List Nat) :
    (List.range' 2 rest.length).map (fun i => (d0 :: d1 :: rest)[i]?.getD 0)
      = rest := by
  apply List.ext_getElem
  · simp
  · intro i h1 h2
    simp only [List.getElem_map, List.getElem_range']
    have h2i : 2 + 1 * i = i + 2 := by omega
    rw [h2i, List.getElem?_cons_succ, List.getElem?_cons_succ,
      List.getElem?_eq_getElem h2]
    rfl

/-! ### C2 — `isSplatted` behaviour -/

/-- C2 as stated is false: a NON-constant tensor whose element type is not
single-precision FLOAT makes `isSplatted` raise the UnimplementedError (the
type check precedes the constness check), while the claim says every
non-constant tensor returns false.  Concrete input: a non-constant DOUBLE
tensor. -/
theorem isSplatted_nonconst_double_errors :
    isSplatted (α := Int) ⟨[1], DataType.DOUBLE, false, [0]⟩ 0
        = Except.error (Err.UnimplementedError "Unimplemented")
    ∧ isSplatted (α := Int) ⟨[1], DataType.DOUBLE, false, [0]⟩ 0
        ≠ Except.ok false := by
  refine ⟨rfl, ?_⟩
  intro h
  simp [isSplatted] at h

/-- C2 amended: `isSplatted` raises UnimplementedError for every tensor
(constant or not) whose element type is not single-precision FLOAT; for
FLOAT tensors it returns false when the tensor is not constant, and it
returns true iff the tensor is constant and every stored element equals the
probed value exactly. -/
theorem isSplatted_characterization {α : Type} [DecidableEq α]
    (t : Tensor α) (value : α) :
    (t.data_type ≠ DataType.FLOAT →
      isSplatted t value = .error (.UnimplementedError "Unimplemented"))
    ∧ (t.data_type = DataType.FLOAT → t.isConst = false →
      isSplatted t value = .ok false)
    ∧ (t.data_type = DataType.FLOAT →
      (isSplatted t value = .ok true ↔
        t.isConst = true ∧ ∀ e ∈ t.data_buffer, e = value)) := by
  refine ⟨?_, ?_, ?_⟩
  · intro h
    simp [isSplatted, h]
  · intro h hc
    simp [isSplatted, h, hc]
  · intro h
    rcases hc : t.isConst with _ | _
    · simp [isSplatted, h, hc]
    · simp [isSplatted, h, hc, List.all_eq_true]

/-- Witness for the amended C2 theorem: a constant FLOAT tensor all of whose
elements equal the probed value is reported as splatted. -/
theorem isSplatted_characterization_witness :
    isSplatted (α := Int) ⟨[2], DataType.FLOAT, true, [5, 5]⟩ 5
      = Except.ok true := by
  exact ((isSplatted_characterization (α := Int)
    ⟨[2], DataType.FLOAT, true, [5, 5]⟩ 5).2.2 rfl).mpr ⟨rfl, by decide⟩

/-- Full characterization of `resolve` on a five-element operand list: the
type checks fire first (TypeError), then the splat checks on scale and bias
raise the UnimplementedError of `isSplatted` when the respective element
type is not single-precision FLOAT, and otherwise resolution succeeds with
the folded state. -/
lemma resolve_five {α : Type} [DecidableEq α] (fsqrt : α → α)
    (fadd : α → α → α) (one zero : α) (st : BatchNormalization α)
    (x s b m v : Tensor α) :
    resolve fsqrt fadd one zero st [x, s, b, m, v] =
      if typeConstraint_plainFloatingPoints x = false
          ∨ typeConstraint_plainFloatingPoints s = false
          ∨ typeConstraint_plainFloatingPoints b = false
          ∨ typeConstraint_plainFloatingPoints m = false
          ∨ typeConstraint_plainFloatingPoints v = false then
        .error (.TypeError "Incorrect input for node")
      else if s.data_type ≠ DataType.FLOAT ∨ b.data_type ≠ DataType.FLOAT then
        .error (.UnimplementedError "Unimplemented")
      else
        .ok
          { state :=
              { st with
                input := some x
                scale :=
                  if s.isConst = true ∧ ∀ e ∈ s.data_buffer, e = one then none
                  else some s
                bias :=
                  if b.isConst = true ∧ ∀ e ∈ b.data_buffer, e = zero then none
                  else some b
                mean := some m
                var := some (if v.isConst then
                    calculateSqrtVarOffline fsqrt fadd st.epsilon v
                  else v)
                sqrt_var_offline :=
                  if v.isConst then true else st.sqrt_var_offline
                output := some ⟨x.data_dim, x.data_type, false, []⟩ }
            registered_inputs :=
              [(x, "X"), (s, "scale"), (b, "bias"), (m, "mean"), (v, "var")]
            registered_outputs :=
              [(⟨x.data_dim, x.data_type, false, []⟩, "output")] } := by
  by_cases hx : typeConstraint_plainFloatingPoints x = false
  · simp [resolve, hx]
  by_cases hs : typeConstraint_plainFloatingPoints s = false
  · simp [resolve, hx, hs]
  by_cases hb : typeConstraint_plainFloatingPoints b = false
  · simp [resolve, hx, hs, hb]
  by_cases hm : typeConstraint_plainFloatingPoints m = false
  · simp [resolve, hx, hs, hb, hm]
  by_cases hv : typeConstraint_plainFloatingPoints v = false
  · simp [resolve, hx, hs, hb, hm, hv]
  by_cases hsF : s.data_type = DataType.FLOAT
  · by_cases hbF : b.data_type = DataType.FLOAT
    · rcases hsc : s.isConst with _ | _ <;> rcases hbc : b.isConst with _ | _
      · simp [resolve, isSplatted, hx, hs, hb, hm, hv, hsF, hbF, hsc, hbc]
      · by_cases hall : ∀ e ∈ b.data_buffer, e = zero
          <;> simp [resolve, isSplatted, hx, hs, hb, hm, hv, hsF, hbF, hsc,
                hbc, hall, List.all_eq_true]
      · by_cases hall : ∀ e ∈ s.data_buffer, e = one
          <;> simp [resolve, isSplatted, hx, hs, hb, hm, hv, hsF, hbF, hsc,
                hbc, hall, List.all_eq_true]
      · by_cases hall : ∀ e ∈ s.data_buffer, e = one
          <;> by_cases hall2 : ∀ e ∈ b.data_buffer, e = zero
          <;> simp [resolve, isSplatted, hx, hs, hb, hm, hv, hsF, hbF, hsc,
                hbc, hall, hall2, List.all_eq_true]
    · rcases hsc : s.isConst with _ | _
        <;> simp [resolve, isSplatted, hx, hs, hb, hm, hv, hsF, hbF, hsc]
  · simp [resolve, hx, hs, hb, hm, hv, isSplatted, hsF]

/-! ### C6 — arity check -/

/-- C6: resolution fails with the ArityError whenever the operand list does
not have exactly five elements, and with exactly five operands it never
fails with an ArityError (it proceeds past the arity check). -/
theorem resolve_arity {α : Type} [DecidableEq α] (fsqrt : α → α)
    (fadd : α → α → α) (one zero : α) (st : BatchNormalization α)
    (inputs : List (Tensor α)) :
    (inputs.length ≠ 5 →
      resolve fsqrt fadd one zero st inputs
        = .error (.ArityError "wrong number of inputs to BatchNormalization"))
    ∧ (inputs.length = 5 → ∀ msg,
      resolve fsqrt fadd one zero st inputs ≠ .error (.ArityError msg)) := by
  constructor
  · intro hlen
    rcases inputs with _ | ⟨a, _ | ⟨b, _ | ⟨c, _ | ⟨d, _ | ⟨e, _ | ⟨f, rest⟩⟩⟩⟩⟩⟩
    · rfl
    · rfl
    · rfl
    · rfl
    · rfl
    · exact absurd rfl hlen
    · rfl
  · intro hlen msg hcontra
    rcases inputs with _ | ⟨a, _ | ⟨b, _ | ⟨c, _ | ⟨d, _ | ⟨e, _ | ⟨f, rest⟩⟩⟩⟩⟩⟩
    · simp at hlen
    · simp at hlen
    · simp at hlen
    · simp at hlen
    · simp at hlen
    · rw [resolve_five] at hcontra
      split_ifs at hcontra
      all_goals simp_all
    · simp at hlen

/-- Witness for C6: an empty operand list is rejected with the ArityError,
and a concrete valid five-operand list is not. -/
theorem resolve_arity_witness :
    resolve (α := Int) id (· + ·) 1 0
        ⟨0, 0, false, none, none, none, none, none, none⟩ []
      = .error (.ArityError "wrong number of inputs to BatchNormalization") := by
  exact (resolve_arity (α := Int) id (· + ·) 1 0
    ⟨0, 0, false, none, none, none, none, none, none⟩ []).1 (by decide)

/-! ### Concrete fixtures used by the closed witness theorems -/

/-- A fresh node state (abstract stand-ins for the constructor's float
defaults; the tensor references start out null). -/
def exNode : BatchNormalization Int :=
  ⟨7, 9, false, none, none, none, none, none, none⟩

/-- Example input tensor X of shape [2,3,4,4]. -/
def exInput : Tensor Int := ⟨[2, 3, 4, 4], DataType.FLOAT, false, []⟩

/-- Example constant scale tensor splatted to `one`. -/
def exScale : Tensor Int := ⟨[3], DataType.FLOAT, true, [1, 1, 1]⟩

/-- Example constant bias tensor splatted to `zero`. -/
def exBias : Tensor Int := ⟨[3], DataType.FLOAT, true, [0, 0, 0]⟩

/-- Example constant mean tensor. -/
def exMean : Tensor Int := ⟨[3], DataType.FLOAT, true, [2, 4, 6]⟩

/-- Example constant variance tensor. -/
def exVar : Tensor Int := ⟨[3], DataType.FLOAT, true, [1, 4, 9]⟩

/-! ### C7 — element-type validation -/

/-- C7: with five operands bound, resolution fails with the TypeError
"Incorrect input for node" whenever any of the five operands does not have a
plain floating-point element type, and when all five are plain floating
point it never fails with a TypeError. -/
theorem resolve_type_check {α : Type} [DecidableEq α] (fsqrt : α → α)
    (fadd : α → α → α) (one zero : α) (st : BatchNormalization α)
    (x s b m v : Tensor α) :
    ((typeConstraint_plainFloatingPoints x = false
        ∨ typeConstraint_plainFloatingPoints s = false
        ∨ typeConstraint_plainFloatingPoints b = false
        ∨ typeConstraint_plainFloatingPoints m = false
        ∨ typeConstraint_plainFloatingPoints v = false) →
      resolve fsqrt fadd one zero st [x, s, b, m, v]
        = .error (.TypeError "Incorrect input for node"))
    ∧ ((typeConstraint_plainFloatingPoints x = true
        ∧ typeConstraint_plainFloatingPoints s = true
        ∧ typeConstraint_plainFloatingPoints b = true
        ∧ typeConstraint_plainFloatingPoints m = true
        ∧ typeConstraint_plainFloatingPoints v = true) → ∀ msg,
      resolve fsqrt fadd one zero st [x, s, b, m, v]
        ≠ .error (.TypeError msg)) := by
  constructor
  · intro h
    rw [resolve_five, if_pos h]
  · intro h msg hcontra
    rw [resolve_five] at hcontra
    split_ifs at hcontra
    all_goals simp_all

/-- Witness for C7: a five-operand list whose scale has an INT32 (integer)
element type is rejected with the TypeError, and the all-FLOAT fixture list
is not rejected with a TypeError. -/
theorem resolve_type_check_witness :
    resolve (α := Int) id (· + ·) 1 0 exNode
        [exInput, ⟨[3], DataType.INT32, true, [1, 1, 1]⟩, exBias, exMean, exVar]
      = .error (.TypeError "Incorrect input for node")
    ∧ resolve (α := Int) id (· + ·) 1 0 exNode
        [exInput, exScale, exBias, exMean, exVar]
      ≠ .error (.TypeError "Incorrect input for node") := by
  constructor
  · exact (resolve_type_check (α := Int) id (· + ·) 1 0 exNode
      exInput ⟨[3], DataType.INT32, true, [1, 1, 1]⟩ exBias exMean exVar).1
      (by decide)
  · exact (resolve_type_check (α := Int) id (· + ·) 1 0 exNode
      exInput exScale exBias exMean exVar).2 (by decide) _

/-! ### C5 — output tensor allocation -/

/-- C5: whenever resolution succeeds, the newly created output tensor copies
the input's shape element-for-element and the input's element type, and it
is registered as the node's single output under the name "output". -/
theorem resolve_output {α : Type} [DecidableEq α] (fsqrt : α → α)
    (fadd : α → α → α) (one zero : α) (st : BatchNormalization α)
    (x s b m v : Tensor α) (res : ResolveResult α)
    (h : resolve fsqrt fadd one zero st [x, s, b, m, v] = .ok res) :
    ∃ rv : Tensor α, res.state.output = some rv
      ∧ rv.data_dim = x.data_dim
      ∧ rv.data_type = x.data_type
      ∧ res.registered_outputs = [(rv, "output")] := by
  rw [resolve_five] at h
  split_ifs at h
  all_goals
    obtain rfl := (Except.ok.injEq _ _).mp h
  all_goals exact ⟨_, rfl, rfl, rfl, rfl⟩

/-- Witness for C5 on the concrete fixture operands. -/
theorem resolve_output_witness :
    ∃ res : ResolveResult Int,
      resolve (α := Int) id (· + ·) 1 0 exNode
          [exInput, exScale, exBias, exMean, exVar] = .ok res
      ∧ ∃ rv : Tensor Int, res.state.output = some rv
        ∧ rv.data_dim = [2, 3, 4, 4]
        ∧ rv.data_type = DataType.FLOAT
        ∧ res.registered_outputs = [(rv, "output")] := by
  refine ⟨_, rfl, ?_⟩
  exact resolve_output (α := Int) id (· + ·) 1 0 exNode
    exInput exScale exBias exMean exVar _ rfl

/-! ### C9 — splat check rejects non-FLOAT plain floats -/

/-- C9: when all five operands pass the plain-floating-point validation but
scale or bias has a plain floating-point element type other than
single-precision FLOAT (e.g. DOUBLE or FLOAT16), resolution fails with the
UnimplementedError raised by the unconditional splat check, regardless of
the tensors' constness. -/
theorem resolve_nonfloat_scale_bias {α : Type} [DecidableEq α]
    (fsqrt : α → α) (fadd : α → α → α) (one zero : α)
    (st : BatchNormalization α) (x s b m v : Tensor α)
    (hx : typeConstraint_plainFloatingPoints x = true)
    (hs : typeConstraint_plainFloatingPoints s = true)
    (hb : typeConstraint_plainFloatingPoints b = true)
    (hm : typeConstraint_plainFloatingPoints m = true)
    (hv : typeConstraint_plainFloatingPoints v = true)
    (hsb : s.data_type ≠ DataType.FLOAT ∨ b.data_type ≠ DataType.FLOAT) :
    resolve fsqrt fadd one zero st [x, s, b, m, v]
      = .error (.UnimplementedError "Unimplemented") := by
  rw [resolve_five]
  rw [if_neg (by simp [hx, hs, hb, hm, hv])]
  rw [if_pos hsb]

/-- Witness for C9: a constant DOUBLE scale tensor (which passes the
plain-floating-point check) makes resolution fail with the
UnimplementedError of the splat check. -/
theorem resolve_nonfloat_scale_bias_witness :
    resolve (α := Int) id (· + ·) 1 0 exNode
        [exInput, ⟨[3], DataType.DOUBLE, true, [1, 1, 1]⟩, exBias, exMean, exVar]
      = .error (.UnimplementedError "Unimplemented") := by
  exact resolve_nonfloat_scale_bias (α := Int) id (· + ·) 1 0 exNode
    exInput ⟨[3], DataType.DOUBLE, true, [1, 1, 1]⟩ exBias exMean exVar
    (by decide) (by decide) (by decide) (by decide) (by decide)
    (Or.inl (by decide))

/-! ### C10 — no rank validation before emission -/

/-- C10: resolution never validates the input's rank — an input of rank 0 or
1 (with otherwise well-typed operands) resolves successfully — and emission
then reads the shape extents at positions 0 and 1, which runs past the end
of the input's shape sequence (modelled by `print` returning `none`). -/
theorem resolve_no_rank_validation {α : Type} [DecidableEq α]
    (fsqrt : α → α) (fadd : α → α → α) (one zero : α)
    (st : BatchNormalization α) (x s b m v : Tensor α)
    (hx : typeConstraint_plainFloatingPoints x = true)
    (hs : typeConstraint_plainFloatingPoints s = true)
    (hb : typeConstraint_plainFloatingPoints b = true)
    (hm : typeConstraint_plainFloatingPoints m = true)
    (hv : typeConstraint_plainFloatingPoints v = true)
    (hsF : s.data_type = DataType.FLOAT) (hbF : b.data_type = DataType.FLOAT)
    (hrank : x.data_dim.length < 2) :
    ∃ res : ResolveResult α,
      resolve fsqrt fadd one zero st [x, s, b, m, v] = .ok res
      ∧ print res.state = none := by
  rw [resolve_five]
  rw [if_neg (by simp [hx, hs, hb, hm, hv]), if_neg (by simp [hsF, hbF])]
  refine ⟨_, rfl, ?_⟩
  rcases hd : x.data_dim with _ | ⟨d0, _ | ⟨d1, rest⟩⟩
  · simp [print, hd]
  · simp [print, hd]
  · rw [hd] at hrank
    simp at hrank
    omega

/-- Witness for C10: a rank-0 input resolves successfully and the emission
model reports the out-of-bounds shape read. -/
theorem resolve_no_rank_validation_witness :
    ∃ res : ResolveResult Int,
      resolve (α := Int) id (· + ·) 1 0 exNode
          [⟨[], DataType.FLOAT, false, []⟩, exScale, exBias, exMean, exVar]
        = .ok res
      ∧ print res.state = none := by
  exact resolve_no_rank_validation (α := Int) id (· + ·) 1 0 exNode
    ⟨[], DataType.FLOAT, false, []⟩ exScale exBias exMean exVar
    (by decide) (by decide) (by decide) (by decide) (by decide)
    (by decide) (by decide) (by decide)

/-! ### Structure of the emitted statement list -/

/-- Explicit form of the statement list emitted by `print` on a resolved
node whose input has rank at least 2. -/
lemma print_eq {α : Type} (st : BatchNormalization α) (inp : Tensor α)
    (hin : st.input = some inp) (d0 d1 : Nat) (rest : List Nat)
    (hd : inp.data_dim = d0 :: d1 :: rest) :
    print st = some
      ([CStmt.headerComment st.epsilon st.momentum]
        ++ (if st.sqrt_var_offline = false then [CStmt.epsilonDecl st.epsilon]
            else [])
        ++ [CStmt.forLoop "b" d0, CStmt.forLoop "c" d1]
        ++ (List.range' 2 rest.length).map
            (fun i => CStmt.forLoop ("i" ++ toString i)
              ((d0 :: d1 :: rest).getD i 0))
        ++ [CStmt.tmp_X (idxString (d0 :: d1 :: rest)) st.sqrt_var_offline,
            CStmt.assignOutput (idxString (d0 :: d1 :: rest))
              st.scale.isSome st.bias.isSome]
        ++ (List.range' 2 rest.length).map (fun _ => CStmt.closeBrace)
        ++ [CStmt.closeBrace, CStmt.closeBrace]) := by
  have hl : (d0 :: d1 :: rest).length - 2 = rest.length := by
    simp only [List.length_cons]
    omega
  simp [print, hin, hd, hl]

/-- The innermost statements emitted by `print`: the `tmp_X` statement is
present, every `tmp_X` statement carries the node's folding flag as its
denominator selector, every output assignment carries exactly the
non-nullness of the scale / bias references, and an epsilon declaration is
present iff the variance was not folded. -/
lemma print_innermost {α : Type} (st : BatchNormalization α) (inp : Tensor α)
    (hin : st.input = some inp) (stmts : List (CStmt α))
    (hp : print st = some stmts) :
    (CStmt.tmp_X (idxString inp.data_dim) st.sqrt_var_offline ∈ stmts)
    ∧ (∀ idxs f, CStmt.tmp_X idxs f ∈ stmts →
        idxs = idxString inp.data_dim ∧ f = st.sqrt_var_offline)
    ∧ (∀ idxs ws wb, CStmt.assignOutput idxs ws wb ∈ stmts →
        ws = st.scale.isSome ∧ wb = st.bias.isSome)
    ∧ (∀ e, CStmt.epsilonDecl e ∈ stmts ↔
        (e = st.epsilon ∧ st.sqrt_var_offline = false)) := by
  rcases hd : inp.data_dim with _ | ⟨d0, _ | ⟨d1, rest⟩⟩
  · simp [print, hin, hd] at hp
  · simp [print, hin, hd] at hp
  · rw [print_eq st inp hin d0 d1 rest hd] at hp
    obtain rfl := Option.some.inj hp
    refine ⟨?_, ?_, ?_, ?_⟩
    · simp [hd]
    · intro idxs f hmem
      rcases hoff : st.sqrt_var_offline with _ | _
      all_goals simp_all [hd]
    · intro idxs ws wb hmem
      rcases hoff : st.sqrt_var_offline with _ | _
      all_goals simp_all
    · intro e
      rcases hoff : st.sqrt_var_offline with _ | _
      all_goals simp_all

/-! ### C4 — loop nest structure -/

/-- C4: on an input of rank at least 2, `print` emits exactly one loop per
input dimension, in order — batch, channel, then one loop per spatial
dimension — each bound equal to the corresponding static shape extent, and
a local epsilon declaration appears (right after the header comment, before
all loops) exactly when the variance was not folded. -/
theorem print_loop_nest {α : Type} (st : BatchNormalization α)
    (inp : Tensor α) (hin : st.input = some inp)
    (hrank : 2 ≤ inp.data_dim.length) :
    ∃ stmts : List (CStmt α), print st = some stmts
      ∧ stmts.filterMap loopBound = inp.data_dim
      ∧ (CStmt.epsilonDecl st.epsilon ∈ stmts ↔ st.sqrt_var_offline = false)
      ∧ (st.sqrt_var_offline = false →
          stmts[1]? = some (CStmt.epsilonDecl st.epsilon)) := by
  rcases hd : inp.data_dim with _ | ⟨d0, _ | ⟨d1, rest⟩⟩
  · rw [hd] at hrank
    simp at hrank
  · rw [hd] at hrank
    simp at hrank
  · refine ⟨_, print_eq st inp hin d0 d1 rest hd, ?_, ?_, ?_⟩
    · rcases hoff : st.sqrt_var_offline with _ | _
      all_goals
        simp [loopBound, List.filterMap_append, List.filterMap_map,
          Function.comp_def, hoff, filterMap_some, spatial_bounds]
    · rcases hoff : st.sqrt_var_offline with _ | _
      all_goals simp [hoff]
    · intro hoff
      simp [hoff]

/-- Witness for C4 on a concrete resolved state: input of shape [2,3,4,4]
with variance not folded. -/
theorem print_loop_nest_witness :
    ∃ stmts : List (CStmt Int),
      print (⟨7, 9, false, some exInput, some exScale, some exBias,
          some exMean, some exVar, none⟩ : BatchNormalization Int)
        = some stmts
      ∧ stmts.filterMap loopBound = exInput.data_dim
      ∧ (CStmt.epsilonDecl 7 ∈ stmts ↔ (false = false))
      ∧ ((false : Bool) = false →
          stmts[1]? = some (CStmt.epsilonDecl 7)) := by
  exact print_loop_nest (α := Int)
    ⟨7, 9, false, some exInput, some exScale, some exBias,
      some exMean, some exVar, none⟩ exInput rfl (by decide)

/-- Field-level characterization of a successful resolution. -/
lemma resolve_ok_state {α : Type} [DecidableEq α] (fsqrt : α → α)
    (fadd : α → α → α) (one zero : α) (st : BatchNormalization α)
    (x s b m v : Tensor α) (res : ResolveResult α)
    (h : resolve fsqrt fadd one zero st [x, s, b, m, v] = .ok res) :
    res.state.epsilon = st.epsilon
    ∧ res.state.input = some x
    ∧ res.state.var = some (if v.isConst then
        calculateSqrtVarOffline fsqrt fadd st.epsilon v else v)
    ∧ res.state.sqrt_var_offline
        = (if v.isConst then true else st.sqrt_var_offline)
    ∧ res.state.scale
        = (if s.isConst = true ∧ ∀ e ∈ s.data_buffer, e = one then none
           else some s)
    ∧ res.state.bias
        = (if b.isConst = true ∧ ∀ e ∈ b.data_buffer, e = zero then none
           else some b) := by
  rw [resolve_five] at h
  split_ifs at h
  all_goals obtain rfl := (Except.ok.injEq _ _).mp h
  all_goals refine ⟨rfl, rfl, ?_, ?_, ?_, ?_⟩
  all_goals split_ifs
  all_goals simp_all

/-! ### C1 — variance constant folding -/

/-- C1: starting from the constructor state (`sqrt_var_offline = false`),
when the variance operand is constant, resolution rewrites its buffer so
that every element equals `sqrt(original + epsilon)` and sets the folded
flag, and the emitted innermost expression divides by `var[c]` (denominator
selector true: no runtime epsilon addition and no sqrt call, and no local
epsilon declaration); when the variance operand is not constant, the buffer
is untouched, the flag stays false, and the emitted innermost expression
computes `sqrt(var[c] + epsilon)` (denominator selector false), with the
local epsilon declared. -/
theorem resolve_variance_folding {α : Type} [DecidableEq α] (fsqrt : α → α)
    (fadd : α → α → α) (one zero : α) (st : BatchNormalization α)
    (x s b m v : Tensor α) (res : ResolveResult α)
    (h0 : st.sqrt_var_offline = false)
    (h : resolve fsqrt fadd one zero st [x, s, b, m, v] = .ok res) :
    (v.isConst = true →
      res.state.sqrt_var_offline = true
      ∧ ∃ vr : Tensor α, res.state.var = some vr
          ∧ vr.data_buffer.length = v.data_buffer.length
          ∧ ∀ (i : Nat) (hi : i < vr.data_buffer.length)
              (hi2 : i < v.data_buffer.length),
              vr.data_buffer[i] = fsqrt (fadd v.data_buffer[i] st.epsilon))
    ∧ (v.isConst = false →
      res.state.var = some v ∧ res.state.sqrt_var_offline = false)
    ∧ (∀ stmts, print res.state = some stmts →
        (CStmt.tmp_X (idxString x.data_dim) v.isConst ∈ stmts)
        ∧ (∀ idxs f, CStmt.tmp_X idxs f ∈ stmts → f = v.isConst)
        ∧ (CStmt.epsilonDecl st.epsilon ∈ stmts ↔ v.isConst = false)) := by
  obtain ⟨heps, hin, hvar, hoff, -, -⟩ :=
    resolve_ok_state fsqrt fadd one zero st x s b m v res h
  have hoff2 : res.state.sqrt_var_offline = v.isConst := by
    rw [hoff, h0]
    rcases v.isConst with _ | _ <;> rfl
  refine ⟨?_, ?_, ?_⟩
  · intro hvc
    refine ⟨by rw [hoff2, hvc], ?_⟩
    rw [hvar, if_pos hvc]
    refine ⟨_, rfl, by simp [calculateSqrtVarOffline], ?_⟩
    intro i hi hi2
    simp [calculateSqrtVarOffline]
  · intro hvc
    rw [hvar, hoff2, hvc]
    simp
  · intro stmts hp
    obtain ⟨h1, h2, -, h4⟩ := print_innermost res.state x hin stmts hp
    rw [hoff2] at h1 h2
    refine ⟨h1, fun idxs f hm => (h2 idxs f hm).2, ?_⟩
    rw [← heps]
    rw [h4 res.state.epsilon, hoff2]
    simp

/-- Witness for C1: with the constant fixture variance [1,4,9] (and the
integer stand-ins `fsqrt = id`, `fadd = +`, epsilon = 7), resolution folds
the buffer to [8,11,16] and sets the flag. -/
theorem resolve_variance_folding_witness :
    ∃ res : ResolveResult Int,
      resolve (α := Int) id (· + ·) 1 0 exNode
          [exInput, exScale, exBias, exMean, exVar] = .ok res
      ∧ res.state.sqrt_var_offline = true := by
  refine ⟨_, rfl, ?_⟩
  exact ((resolve_variance_folding (α := Int) id (· + ·) 1 0 exNode
    exInput exScale exBias exMean exVar _ rfl rfl).1 rfl).1

/-! ### C3 — identity elision of scale and bias -/

/-- C3: when the scale operand is constant and splatted to one, resolution
nulls the scale reference and every emitted output assignment omits the
scale multiplication; when the bias operand is constant and splatted to
zero, resolution nulls the bias reference and every emitted output
assignment omits the bias addition. -/
theorem resolve_identity_elision {α : Type} [DecidableEq α] (fsqrt : α → α)
    (fadd : α → α → α) (one zero : α) (st : BatchNormalization α)
    (x s b m v : Tensor α) (res : ResolveResult α)
    (h : resolve fsqrt fadd one zero st [x, s, b, m, v] = .ok res) :
    (s.isConst = true → (∀ e ∈ s.data_buffer, e = one) →
      res.state.scale = none)
    ∧ (b.isConst = true → (∀ e ∈ b.data_buffer, e = zero) →
      res.state.bias = none)
    ∧ (∀ stmts, print res.state = some stmts →
        ∀ idxs ws wb, CStmt.assignOutput idxs ws wb ∈ stmts →
          (s.isConst = true → (∀ e ∈ s.data_buffer, e = one) → ws = false)
          ∧ (b.isConst = true → (∀ e ∈ b.data_buffer, e = zero) →
              wb = false)) := by
  obtain ⟨-, hin, -, -, hscale, hbias⟩ :=
    resolve_ok_state fsqrt fadd one zero st x s b m v res h
  refine ⟨?_, ?_, ?_⟩
  · intro hc hall
    rw [hscale, if_pos ⟨hc, hall⟩]
  · intro hc hall
    rw [hbias, if_pos ⟨hc, hall⟩]
  · intro stmts hp idxs ws wb hm
    obtain ⟨-, -, h3, -⟩ := print_innermost res.state x hin stmts hp
    obtain ⟨hws, hwb⟩ := h3 idxs ws wb hm
    constructor
    · intro hc hall
      rw [hws, hscale, if_pos ⟨hc, hall⟩]
      rfl
    · intro hc hall
      rw [hwb, hbias, if_pos ⟨hc, hall⟩]
      rfl

/-- Witness for C3: the fixture scale is constant all-ones and the fixture
bias constant all-zeros, so both references are nulled. -/
theorem resolve_identity_elision_witness :
    ∃ res : ResolveResult Int,
      resolve (α := Int) id (· + ·) 1 0 exNode
          [exInput, exScale, exBias, exMean, exVar] = .ok res
      ∧ res.state.scale = none ∧ res.state.bias = none := by
  refine ⟨_, rfl, ?_, ?_⟩
  · exact (resolve_identity_elision (α := Int) id (· + ·) 1 0 exNode
      exInput exScale exBias exMean exVar _ rfl).1 rfl (by decide)
  · exact (resolve_identity_elision (α := Int) id (· + ·) 1 0 exNode
      exInput exScale exBias exMean exVar _ rfl).2.1 rfl (by decide)

/-! ### C8 — attribute parsing -/

/-- C8: attribute parsing succeeds only when every record is named epsilon,
momentum, or spatial; a leading epsilon / momentum record whose declared
type is not single-precision float or that carries no value fails with the
AttributeError "Bad attribute"; a leading spatial record carrying an
integer value other than 1 fails with the UnimplementedError; a leading
record with any other name fails with the AttributeError "Unknown
attribute". -/
theorem parseAttributes_spec {α : Type} :
    (∀ (st : BatchNormalization α) attrs st2,
      parseAttributes st attrs = .ok st2 →
      ∀ a ∈ attrs,
        a.name = "epsilon" ∨ a.name = "momentum" ∨ a.name = "spatial")
    ∧ (∀ (st : BatchNormalization α) (a : AttributeProto α) rest,
      (a.name = "epsilon" ∨ a.name = "momentum") →
      (a.type ≠ AttributeType.FLOAT ∨ a.f = none) →
      parseAttributes st (a :: rest)
        = .error (.AttributeError ("Bad attribute " ++ a.name)))
    ∧ (∀ (st : BatchNormalization α) (a : AttributeProto α) rest (k : Int),
      a.name = "spatial" → a.i = some k → k ≠ 1 →
      parseAttributes st (a :: rest)
        = .error (.UnimplementedError
            "non-default value for spatial attribute not implemented"))
    ∧ (∀ (st : BatchNormalization α) (a : AttributeProto α) rest,
      a.name ≠ "epsilon" → a.name ≠ "momentum" → a.name ≠ "spatial" →
      parseAttributes st (a :: rest)
        = .error (.AttributeError ("Unknown attribute " ++ a.name))) := by
  refine ⟨?_, ?_, ?_, ?_⟩
  · intro st0 attrs
    suffices hgen : ∀ (st : BatchNormalization α) st2,
        parseAttributes st attrs = .ok st2 →
        ∀ a ∈ attrs,
          a.name = "epsilon" ∨ a.name = "momentum" ∨ a.name = "spatial" by
      exact hgen st0
    induction attrs with
    | nil =>
      intro st st2 h a ha
      simp at ha
    | cons a rest ih =>
      intro st st2 h a2 ha2
      rcases List.mem_cons.mp ha2 with rfl | hmem
      · by_cases h1 : a2.name = "epsilon"
        · exact Or.inl h1
        by_cases h2 : a2.name = "momentum"
        · exact Or.inr (Or.inl h2)
        by_cases h3 : a2.name = "spatial"
        · exact Or.inr (Or.inr h3)
        simp [parseAttributes, h1, h2, h3] at h
      · by_cases h1 : a.name = "epsilon"
        · simp only [parseAttributes] at h
          rw [if_pos h1] at h
          rcases he : parseAttribute_epsilon st a with e | st3
          · rw [he] at h
            simp at h
          · rw [he] at h
            exact ih st3 st2 h a2 hmem
        by_cases h2 : a.name = "momentum"
        · simp only [parseAttributes] at h
          rw [if_neg h1, if_pos h2] at h
          rcases he : parseAttribute_momentum st a with e | st3
          · rw [he] at h
            simp at h
          · rw [he] at h
            exact ih st3 st2 h a2 hmem
        by_cases h3 : a.name = "spatial"
        · simp only [parseAttributes] at h
          rw [if_neg h1, if_neg h2, if_pos h3] at h
          rcases he : parse_attribute_int a with e | k
          · rw [he] at h
            simp at h
          · rw [he] at h
            replace h : (if k ≠ 1 then
                (Except.error (Err.UnimplementedError
                    "non-default value for spatial attribute not implemented")
                  : Except Err (BatchNormalization α))
                else parseAttributes st rest) = Except.ok st2 := h
            by_cases hk : k = 1
            · rw [if_neg (by simp [hk])] at h
              exact ih st st2 h a2 hmem
            · rw [if_pos (by simp [hk])] at h
              simp at h
        · simp only [parseAttributes] at h
          rw [if_neg h1, if_neg h2, if_neg h3] at h
          simp at h
  · intro st a rest hname hbad
    rcases hname with h1 | h1
    · rcases hbad with ht | hf
      · simp [parseAttributes, h1, parseAttribute_epsilon, ht]
      · by_cases ht : a.type = AttributeType.FLOAT
        · simp [parseAttributes, h1, parseAttribute_epsilon, ht, hf]
        · simp [parseAttributes, h1, parseAttribute_epsilon, ht]
    · rcases hbad with ht | hf
      · simp [parseAttributes, h1, parseAttribute_momentum, ht]
      · by_cases ht : a.type = AttributeType.FLOAT
        · simp [parseAttributes, h1, parseAttribute_momentum, ht, hf]
        · simp [parseAttributes, h1, parseAttribute_momentum, ht]
  · intro st a rest k h1 hi hk
    simp [parseAttributes, h1, parse_attribute_int, hi, hk]
  · intro st a rest h1 h2 h3
    simp [parseAttributes, h1, h2, h3]

/-- Witness for C8: `spatial = 0` fails with the UnimplementedError, and an
attribute named "training_mode" fails with the unknown-attribute
AttributeError. -/
theorem parseAttributes_spec_witness :
    parseAttributes (α := Int) exNode
        [⟨"spatial", AttributeType.INT, none, some 0⟩]
      = .error (.UnimplementedError
          "non-default value for spatial attribute not implemented")
    ∧ parseAttributes (α := Int) exNode
        [⟨"training_mode", AttributeType.INT, none, some 1⟩]
      = .error (.AttributeError ("Unknown attribute " ++ "training_mode")) := by
  constructor
  · exact (parseAttributes_spec (α := Int)).2.2.1 exNode
      ⟨"spatial", AttributeType.INT, none, some 0⟩ [] 0 rfl rfl (by decide)
  · exact (parseAttributes_spec (α := Int)).2.2.2 exNode
      ⟨"training_mode", AttributeType.INT, none, some 1⟩ []
      (by decide) (by decide) (by decide)

end OnnxToC
